import Mathlib

/-!
Shallow embedding of the feed fan-out core of the repository
(src/freet/collection.ts, src/feed/collection.ts, the user router in
src/unnamed/part_003, the freet router in src/unnamed/part_002, the feed
router in src/unnamed/part_005, src/freet/middleware.ts, and the second
FreetCollection version in src/unnamed/part_000).

Modelling conventions:
* MongoDB ObjectIds are modelled as `String` (their hex form, which is what
  every comparison in the routes actually compares, since the routers pass
  `req.params`/`req.body` strings and `ObjectId.toString()` yields hex).
* Each Mongo collection is a Lean list of records; `findOne {field: v}` is
  `List.find?` on that field (first match), `save` on a fetched document is
  replace-first-match, `deleteOne` removes the first match, `deleteMany`
  filters.
* A thrown JavaScript `TypeError` (null dereference on the result of a
  `findOne` that returned `null`) is modelled as `Option.none`: it is the only
  failure channel in this code, which defines no error values of its own.
* Feed documents embed post snapshots.  `publishFreetToFollowers` embeds an
  UNpopulated freet, whose `authorId` is an ObjectId and stringifies to the
  author's id; `updateFeedByAuthor` embeds freets obtained through
  `.populate('authorId')`, whose `authorId` field is the full user document
  and stringifies to `"[object Object]"` (a populated subdocument survives
  `feed.save()` as an embedded object, and neither a mongoose document's
  `toString` nor a plain object's ever equals a bare hex id).  The
  `AuthorRef` type records which of the two shapes an embedded snapshot's
  `authorId` has, and `AuthorRef.refString` is its JavaScript
  `.toString()` image.
-/

/-- A user record.  `UserCollection` itself is not under src/; the fields are
the ones the in-scope code reads: `_id`, `username`, `following` (a list of
usernames, per the follow route), `followedBy` (a list of user ids, per
`publishFreetToFollowers`). -/
structure User where
  id : String
  username : String
  following : List String
  followedBy : List String
deriving Repr, DecidableEq

/-- The `authorId` field of an embedded feed snapshot: either a raw ObjectId
(unpopulated freet) or a populated user document. -/
inductive AuthorRef where
  | oid (id : String)
  | populated (u : User)
deriving Repr, DecidableEq

/-- The JavaScript `.toString()` image of an embedded snapshot's `authorId`.
A raw ObjectId stringifies to its hex id; an embedded populated user object
stringifies to `"[object Object]"` (never a bare hex id). -/
def AuthorRef.refString : AuthorRef → String
  | .oid i => i
  | .populated _ => "[object Object]"

/-- A freet record, fields per the FreetModel constructions in
src/freet/collection.ts and src/unnamed/part_000. -/
structure Freet where
  id : String
  authorId : String
  dateCreated : Nat
  content : String
  readmore : String
  likes : Int
  categories : List String
deriving Repr, DecidableEq

/-- An embedded post snapshot inside a feed document: the freet's fields with
`authorId` in whichever shape (raw id or populated document) it had when the
snapshot was appended. -/
structure FeedEntry where
  fid : String
  authorRef : AuthorRef
  dateCreated : Nat
  content : String
  readmore : String
  likes : Int
deriving Repr, DecidableEq

/-- Snapshot of an unpopulated freet (as appended by
`FreetCollection.publishFreetToFollowers`). -/
def Freet.snapshot (fr : Freet) : FeedEntry :=
  { fid := fr.id, authorRef := .oid fr.authorId, dateCreated := fr.dateCreated
    content := fr.content, readmore := fr.readmore, likes := fr.likes }

/-- Snapshot of a freet populated with its author's user document (as appended
by `FeedCollection.updateFeedByAuthor`, which uses
`FreetCollection.findAllByUsername`, i.e. `.populate('authorId')`). -/
def Freet.snapshotPopulated (fr : Freet) (u : User) : FeedEntry :=
  { fid := fr.id, authorRef := .populated u, dateCreated := fr.dateCreated
    content := fr.content, readmore := fr.readmore, likes := fr.likes }

/-- A feed document (src/feed, model: `userId`, `freets`). -/
structure Feed where
  userId : String
  freets : List FeedEntry
deriving Repr, DecidableEq

/-- The database: the three Mongo collections the feed core touches. -/
structure DB where
  users : List User
  freets : List Freet
  feeds : List Feed
deriving Repr, DecidableEq

namespace UserCollection

/-- Modelled from the spec: `UserCollection.findOneByUserId` is not under
src/; per §4.3 it is a `findById` lookup, i.e. `findOne {_id: userId}`. -/
def findOneByUserId (db : DB) (userId : String) : Option User :=
  db.users.find? (fun u => u.id == userId)

/-- Modelled from the spec: `UserCollection.findOneByUsername` is not under
src/; per §4.3 it is a `findOne {username}` lookup. -/
def findOneByUsername (db : DB) (username : String) : Option User :=
  db.users.find? (fun u => u.username == username)

/-- Modelled from the spec: `UserCollection.updateOne` with a `following`
field is not under src/; per §4.3 it sets the follower's `following` sequence
and keeps every other user's `followedBy` back-reference consistent in the
same call path. -/
def updateFollowing (db : DB) (userId : String) (newFollowing : List String) : DB :=
  { db with
    users := db.users.map (fun u =>
      if u.id = userId then { u with following := newFollowing }
      else if u.username ∈ newFollowing then
        { u with followedBy :=
            if userId ∈ u.followedBy then u.followedBy else u.followedBy ++ [userId] }
      else { u with followedBy := u.followedBy.filter (fun i => i ≠ userId) }) }

/-- Modelled from the spec: `UserCollection.deleteOne` is not under src/; per
§4.3 it deletes the user record (`deleteOne {_id: userId}`, first match). -/
def deleteOne (db : DB) (userId : String) : DB :=
  { db with users := db.users.eraseP (fun u => u.id == userId) }

end UserCollection

/-- Replace the `freets` array of the first feed document whose `userId`
matches (this is `feed.save()` on the document returned by
`FeedModel.findOne({userId})`). -/
def setFeed : List Feed → String → List FeedEntry → List Feed
  | [], _, _ => []
  | f :: rest, uid, fs =>
    if f.userId = uid then { f with freets := fs } :: rest
    else f :: setFeed rest uid fs

namespace FeedCollection

/-- src/feed/collection.ts `findFeedByUserId`: `FeedModel.findOne({userId})`. -/
def findFeedByUserId (db : DB) (userId : String) : Option Feed :=
  db.feeds.find? (fun f => f.userId == userId)

/-- src/feed/collection.ts `addOne`: a new feed with an empty freets array. -/
def addOne (db : DB) (userId : String) : DB :=
  { db with feeds := db.feeds ++ [{ userId := userId, freets := [] }] }

/-- src/feed/collection.ts `updateFeedByAuthor`: fetch the author by id
(`author.username` throws if absent), fetch the author's freets via
`FreetCollection.findAllByUsername` (which re-resolves the username to a user
— `author._id` throws if that lookup fails — and populates `authorId`), then
append them all to the feed's array (`feed.freets` throws if the feed is
absent; the `if (freets)` test is always true of an array). -/
def updateFeedByAuthor (db : DB) (userId authorId : String) : Option DB :=
  match UserCollection.findOneByUserId db authorId with
  | none => none
  | some author =>
    match UserCollection.findOneByUsername db author.username with
    | none => none
    | some byName =>
      let freets := db.freets.filter (fun fr => fr.authorId == byName.id)
      match findFeedByUserId db userId with
      | none => none
      | some feed =>
        let fs := feed.freets ++ freets.map (fun fr => fr.snapshotPopulated byName)
        some { db with feeds := setFeed db.feeds userId fs }

/-- src/feed/collection.ts `deleteFromFeedByAuthor`: keep exactly the entries
with `freet.authorId.toString() !== authorId.toString()` (`feed.freets` throws
if the feed is absent). -/
def deleteFromFeedByAuthor (db : DB) (userId authorId : String) : Option DB :=
  match findFeedByUserId db userId with
  | none => none
  | some feed =>
    let fs := feed.freets.filter (fun e => e.authorRef.refString ≠ authorId)
    some { db with feeds := setFeed db.feeds userId fs }

/-- src/feed/collection.ts `deleteOne`: `FeedModel.deleteOne({userId})`
(removes the first matching document; the returned `DeleteResult` is compared
to `null` and is never `null`, so the boolean is always `true`). -/
def deleteOne (db : DB) (userId : String) : DB × Bool :=
  ({ db with feeds := db.feeds.eraseP (fun f => f.userId == userId) }, true)

end FeedCollection

namespace FreetCollection

/-- `FreetModel.findOne({_id: freetId})`. -/
def findFreet (db : DB) (freetId : String) : Option Freet :=
  db.freets.find? (fun fr => fr.id == freetId)

/-- src/freet/collection.ts `findAllByUserId` shape:
`FreetModel.find({authorId})`, insertion order. -/
def findAllByUserId (db : DB) (userId : String) : List Freet :=
  db.freets.filter (fun fr => fr.authorId == userId)

/-- One iteration of the fan-out loops in `publishFreetToFollowers` /
`deleteFreetFromFollowers`: fetch the user's feed (`feed.freets` throws —
`none` — if it is absent), rewrite its array with `g`, save. -/
def modifyFeed (db : DB) (userId : String) (g : List FeedEntry → List FeedEntry) :
    Option DB :=
  match FeedCollection.findFeedByUserId db userId with
  | none => none
  | some feed => some { db with feeds := setFeed db.feeds userId (g feed.freets) }

/-- The `for (const followerId of author.followedBy)` loop, threaded left to
right, followed by the author's own feed update. -/
def fanout (db : DB) (followers : List String) (authorId : String)
    (g : List FeedEntry → List FeedEntry) : Option DB := do
  let db1 ← followers.foldlM (fun d uid => modifyFeed d uid g) db
  modifyFeed db1 authorId g

/-- src/freet/collection.ts `publishFreetToFollowers`: fetch the freet
(`freet.authorId` throws if absent), fetch the author (`author.followedBy`
throws if absent — the later `if (freet)` test is necessarily true once
control reaches it), then append the unpopulated snapshot to every follower's
feed and to the author's own feed. -/
def publishFreetToFollowers (db : DB) (freetId : String) : Option DB :=
  match findFreet db freetId with
  | none => none
  | some freet =>
    match UserCollection.findOneByUserId db freet.authorId with
    | none => none
    | some author =>
      fanout db author.followedBy author.id (fun fs => fs ++ [freet.snapshot])

/-- src/freet/collection.ts `deleteFreetFromFollowers`: same traversal, but
each feed keeps exactly the entries with `feedFreet._id != freetId` (loose
inequality of an ObjectId against the route's string, i.e. hex-string
inequality). -/
def deleteFreetFromFollowers (db : DB) (freetId : String) : Option DB :=
  match findFreet db freetId with
  | none => none
  | some freet =>
    match UserCollection.findOneByUserId db freet.authorId with
    | none => none
    | some author =>
      fanout db author.followedBy author.id
        (fun fs => fs.filter (fun e => e.fid ≠ freetId))

/-- src/freet/collection.ts `addOne`: save a new freet with `likes = 0` (the
3-argument version; `categories` is not set and defaults to the empty array),
then run `publishFreetToFollowers` on its id. Mongo assigns the fresh `_id`;
the model takes it (and the date) as arguments. -/
def addOne (db : DB) (authorId content readmore : String)
    (newId : String) (date : Nat) : Option (DB × Freet) :=
  let freet : Freet :=
    { id := newId, authorId := authorId, dateCreated := date, content := content
      readmore := readmore, likes := 0, categories := [] }
  let db1 := { db with freets := db.freets ++ [freet] }
  match publishFreetToFollowers db1 newId with
  | none => none
  | some db2 => some (db2, freet)

/-- The update argument of `updateOne` (absent JS fields are `none`). -/
structure FreetDetails where
  likes : Option Int
  categories : Option (List String)
deriving Repr, DecidableEq

/-- src/freet/collection.ts `updateOne`: fetch the freet (`freet.likes` throws
if absent), and set `likes` only under `if (freetDetails.likes)` — JavaScript
truthiness, so a provided `likes` of `0` is NOT applied; no other field (in
particular not `categories`) is touched. Save is replace-first-match by id. -/
def updateOne (db : DB) (freetId : String) (details : FreetDetails) :
    Option (DB × Freet) :=
  match findFreet db freetId with
  | none => none
  | some freet =>
    let freet1 :=
      match details.likes with
      | some v => if v ≠ 0 then { freet with likes := v } else freet
      | none => freet
    let saved := db.freets.map (fun fr => if fr.id = freetId then freet1 else fr)
    some ({ db with freets := saved }, freet1)

/-- src/freet/collection.ts `deleteOne`: run `deleteFreetFromFollowers` first
(it throws — `none` — when the freet is absent), then
`FreetModel.deleteOne({_id})`; the returned `DeleteResult` is compared to
`null` and is never `null`, so when the call completes it returns `true`. -/
def deleteOne (db : DB) (freetId : String) : Option (DB × Bool) :=
  match deleteFreetFromFollowers db freetId with
  | none => none
  | some db1 =>
    some ({ db1 with freets := db1.freets.eraseP (fun fr => fr.id == freetId) }, true)

/-- src/freet/collection.ts `deleteMany`: `FreetModel.deleteMany({authorId})`
— it deletes the author's freets from the freet collection and touches no
feed. -/
def deleteMany (db : DB) (authorId : String) : DB :=
  { db with freets := db.freets.filter (fun fr => fr.authorId ≠ authorId) }

end FreetCollection

namespace FreetCollectionAlt

/-- src/unnamed/part_000 `addOne` (the 4-argument variant with `categories`;
no feed fan-out in this version of the collection). -/
def addOne (db : DB) (authorId content readmore : String)
    (categories : List String) (newId : String) (date : Nat) : DB × Freet :=
  let freet : Freet :=
    { id := newId, authorId := authorId, dateCreated := date, content := content
      readmore := readmore, likes := 0, categories := categories }
  ({ db with freets := db.freets ++ [freet] }, freet)

/-- src/unnamed/part_000 `updateOne`: applies `likes` under
`freetDetails.likes !== undefined` (so a provided `0` IS applied) and
`categories` under `freetDetails.categories !== undefined`; no other field is
touched. -/
def updateOne (db : DB) (freetId : String) (details : FreetCollection.FreetDetails) :
    Option (DB × Freet) :=
  match FreetCollection.findFreet db freetId with
  | none => none
  | some freet =>
    let freet1 :=
      match details.likes with
      | some v => { freet with likes := v }
      | none => freet
    let freet2 :=
      match details.categories with
      | some cs => { freet1 with categories := cs }
      | none => freet1
    let saved := db.freets.map (fun fr => if fr.id = freetId then freet2 else fr)
    some ({ db with freets := saved }, freet2)

end FreetCollectionAlt

/-- Result of a route: either a success payload or an HTTP error status. -/
inductive RouteResult (α : Type) where
  | ok (payload : α)
  | clientError (status : Nat)
deriving Repr, DecidableEq

/-- JavaScript `String.prototype.trim`: strip leading and trailing
whitespace (structurally recursive so concrete instances evaluate). -/
def jsTrim (s : String) : String :=
  ⟨((s.data.dropWhile Char.isWhitespace).reverse.dropWhile
      Char.isWhitespace).reverse⟩

/-- JavaScript string truthiness of an optional string field
(`undefined`, missing, and `""` are falsy). -/
def jsTruthyStr : Option String → Bool
  | none => false
  | some s => s ≠ ""

namespace freetMiddleware

/-- src/freet/middleware.ts `isValidFreetContent`: reject 400 when the trimmed
content is empty and `req.body.refreetOf` is falsy; reject 413 when the
content exceeds 140 characters. -/
def isValidFreetContent (content : String) (refreetOf : Option String) :
    Option Nat :=
  if jsTrim content = "" ∧ ¬ jsTruthyStr refreetOf then some 400
  else if content.length > 140 then some 413
  else none

/-- src/freet/middleware.ts `isValidReadMore`: reject 413 when the readmore is
truthy and longer than 600 characters. -/
def isValidReadMore (readmore : Option String) : Option Nat :=
  if jsTruthyStr readmore ∧ (readmore.getD "").length > 600 then some 413
  else none

/-- src/freet/middleware.ts `isValidCategories`: the body field must be a
string (modelled as given) splitting on commas into pieces of at most 24
characters each; otherwise reject 413. -/
def isValidCategories (categories : String) : Option Nat :=
  if (categories.splitOn ",").any (fun c => c.length > 24) then some 413
  else none

end freetMiddleware

namespace freetRouter

/-- src/unnamed/part_001 `parseCategories`: split on commas, trim, drop empty
and duplicate entries (first occurrence kept, via `new Set`). -/
def parseCategories (categoriesString : String) : List String :=
  (((categoriesString.splitOn ",").map String.trim).filter
    (fun c => c.length > 0)).dedup

/-- src/unnamed/part_002 `POST /api/freets` for a logged-in user: the
validator chain (`isValidFreetContent`, `isValidReadMore`,
`isValidCategories`) runs before the handler; a rejection responds without
touching any store.  The handler parses the categories and calls the
4-argument `addOne` (src/unnamed/part_000), responding 201. -/
def createFreet (db : DB) (userId content : String) (readmore : Option String)
    (refreetOf : Option String) (categories : String)
    (newId : String) (date : Nat) : DB × RouteResult Freet :=
  match freetMiddleware.isValidFreetContent content refreetOf with
  | some status => (db, .clientError status)
  | none =>
    match freetMiddleware.isValidReadMore readmore with
    | some status => (db, .clientError status)
    | none =>
      match freetMiddleware.isValidCategories categories with
      | some status => (db, .clientError status)
      | none =>
        let parsed := parseCategories categories
        let out := FreetCollectionAlt.addOne db userId content
          (readmore.getD "") parsed newId date
        (out.1, .ok out.2)

end freetRouter

namespace feedRouter

/-- src/unnamed/part_005 `GET /api/feed` for a logged-in session:
`isCurrentSessionUserExists` responds 500 when the session user is gone;
otherwise the handler fetches the feed and responds 200 with
`(feed && feed.freets) ? feed.freets : []` — the stored array unmodified when
the feed document exists (an array is always truthy), `[]` when it is
absent. -/
def getFeed (db : DB) (userId : String) : RouteResult (List FeedEntry) :=
  match UserCollection.findOneByUserId db userId with
  | none => .clientError 500
  | some _ =>
    match FeedCollection.findFeedByUserId db userId with
    | none => .ok []
    | some feed => .ok feed.freets

end feedRouter

namespace userRouter

/-- src/unnamed/part_003 `POST /api/users/follow` for a logged-in user (the
`existsAndIsNotAlreadyFollowed` validator has passed): resolve the followed
user by username (`followedUser._id` throws if absent), fetch the follower
(`user.following` throws if absent), append the username to `following`
(back-reference maintained by `UserCollection.updateOne`, which is not under
src/ and is modelled from the spec), then
`FeedCollection.updateFeedByAuthor`. -/
def follow (db : DB) (userId username : String) : Option DB :=
  match UserCollection.findOneByUsername db username with
  | none => none
  | some followedUser =>
    match UserCollection.findOneByUserId db userId with
    | none => none
    | some user =>
      let db1 := UserCollection.updateFollowing db userId (user.following ++ [username])
      FeedCollection.updateFeedByAuthor db1 userId followedUser.id

/-- src/unnamed/part_003 `DELETE /api/users/follow/:username` for a logged-in
user: resolve the followed user, filter the username out of `following`, then
`FeedCollection.deleteFromFeedByAuthor`. -/
def unfollow (db : DB) (userId username : String) : Option DB :=
  match UserCollection.findOneByUsername db username with
  | none => none
  | some followedUser =>
    match UserCollection.findOneByUserId db userId with
    | none => none
    | some user =>
      let db1 := UserCollection.updateFollowing db userId
        (user.following.filter (fun n => n ≠ username))
      FeedCollection.deleteFromFeedByAuthor db1 userId followedUser.id

/-- src/unnamed/part_003 `DELETE /api/users` (account deletion) for a
logged-in user: `UserCollection.deleteOne`, then `FreetCollection.deleteMany`
(which removes the posts from the freet collection only), then
`FeedCollection.deleteOne` (which removes the user's own feed record). -/
def deleteAccount (db : DB) (userId : String) : DB :=
  let db1 := UserCollection.deleteOne db userId
  let db2 := FreetCollection.deleteMany db1 userId
  (FeedCollection.deleteOne db2 userId).1

end userRouter

/-- Concrete users and database used by the witnesses: author `userA` (id
`"a"`) followed by `userF` (id `"f"`), both with (initially empty) feed
records. -/
def userA : User := { id := "a", username := "alice", following := [], followedBy := ["f"] }

def userF : User := { id := "f", username := "fred", following := ["alice"], followedBy := [] }

def dbC1 : DB :=
  { users := [userA, userF], freets := []
    feeds := [{ userId := "f", freets := [] }, { userId := "a", freets := [] }] }


/-- A post by `userA`, used in concrete scenarios. -/
def freetP : Freet :=
  { id := "p1", authorId := "a", dateCreated := 0, content := "hi"
    readmore := "", likes := 0, categories := [] }

/-- `userA` with `freetP` already fanned out to its own and `userF`'s feeds. -/
def dbFan : DB :=
  { users := [userA, userF], freets := [freetP]
    feeds := [{ userId := "f", freets := [freetP.snapshot] },
              { userId := "a", freets := [freetP.snapshot] }] }

/-- `userA` (no followers yet) and `userF` (following nobody yet), `userA`
with one existing post; used for the follow/unfollow/follow scenario. -/
def userA0 : User := { id := "a", username := "alice", following := [], followedBy := [] }

def userF0 : User := { id := "f", username := "fred", following := [], followedBy := [] }

def dbC3 : DB :=
  { users := [userA0, userF0], freets := [freetP]
    feeds := [{ userId := "f", freets := [] },
              { userId := "a", freets := [freetP.snapshot] }] }

/-- `userF`'s feed holding a POPULATED snapshot of `freetP` (the shape the
follow operation appends). -/
def dbC5 : DB :=
  { users := [userA, userF], freets := [freetP]
    feeds := [{ userId := "f", freets := [freetP.snapshotPopulated userA] },
              { userId := "a", freets := [] }] }

/-- `userA` has a follower (`userF`) with no feed record. -/
def dbC6 : DB :=
  { users := [userA, userF], freets := [freetP]
    feeds := [{ userId := "a", freets := [] }] }

/-- A stored freet with a nonzero like count. -/
def freetP5 : Freet :=
  { id := "p1", authorId := "a", dateCreated := 0, content := "hi"
    readmore := "", likes := 5, categories := [] }

def dbC7 : DB := { users := [userA], freets := [freetP5], feeds := [] }

/-- An empty store. -/
def dbEmpty : DB := { users := [], freets := [], feeds := [] }

/-! Lemmas about feed lookup and save. -/

theorem setFeed_find_self (l : List Feed) (uid : String) (fs : List FeedEntry)
    (h : (l.find? (fun f => f.userId == uid)).isSome) :
    (setFeed l uid fs).find? (fun f => f.userId == uid) =
      some { userId := uid, freets := fs } := by
  induction l with
  | nil => simp [List.find?] at h
  | cons f rest ih =>
    by_cases hf : f.userId = uid
    · simp [setFeed, hf, List.find?]
    · have hne : (f.userId == uid) = false := by
        simp [hf]
      simp only [List.find?, hne] at h
      simp [setFeed, hf, List.find?, hne, ih h]

theorem setFeed_find_ne (l : List Feed) (uid : String) (fs : List FeedEntry)
    (uid' : String) (h : uid' ≠ uid) :
    (setFeed l uid fs).find? (fun f => f.userId == uid') =
      l.find? (fun f => f.userId == uid') := by
  induction l with
  | nil => rfl
  | cons f rest ih =>
    by_cases hf : f.userId = uid
    · have hskip : ¬ ((fun f => f.userId == uid') ({ f with freets := fs } : Feed)) = true := by
        show ¬ (f.userId == uid') = true
        simp only [beq_iff_eq, hf]
        exact fun hc => h hc.symm
      have hskip2 : ¬ ((fun f => f.userId == uid') f) = true := hskip
      simp only [setFeed, if_pos hf]
      rw [List.find?_cons_of_neg rest hskip, List.find?_cons_of_neg rest hskip2]
    · simp only [setFeed, if_neg hf]
      by_cases hp : f.userId = uid'
      · rw [List.find?_cons_of_pos (setFeed rest uid fs) (by simp [hp]),
          List.find?_cons_of_pos rest (by simp [hp])]
      · rw [List.find?_cons_of_neg (setFeed rest uid fs) (by simp [hp]),
          List.find?_cons_of_neg rest (by simp [hp])]
        exact ih

theorem setFeed_of_find_none (l : List Feed) (uid : String) (fs : List FeedEntry)
    (h : l.find? (fun f => f.userId == uid) = none) :
    setFeed l uid fs = l := by
  induction l with
  | nil => simp [setFeed]
  | cons f rest ih =>
    by_cases hf : f.userId = uid
    · simp [List.find?, hf] at h
    · have hne : (f.userId == uid) = false := by simp [hf]
      simp only [List.find?, hne] at h
      simp [setFeed, hf, ih h]

namespace FreetCollection

theorem modifyFeed_eq_none (db : DB) (uid : String)
    (g : List FeedEntry → List FeedEntry) :
    modifyFeed db uid g = none ↔ FeedCollection.findFeedByUserId db uid = none := by
  unfold modifyFeed
  cases h : FeedCollection.findFeedByUserId db uid <;> simp

theorem modifyFeed_spec (db : DB) (uid : String)
    (g : List FeedEntry → List FeedEntry) (feed : Feed)
    (h : FeedCollection.findFeedByUserId db uid = some feed) :
    ∃ db', modifyFeed db uid g = some db' ∧
      db'.users = db.users ∧ db'.freets = db.freets ∧
      FeedCollection.findFeedByUserId db' uid =
        some { userId := uid, freets := g feed.freets } ∧
      (∀ uid', uid' ≠ uid →
        FeedCollection.findFeedByUserId db' uid' =
          FeedCollection.findFeedByUserId db uid') := by
  refine ⟨{ db with feeds := setFeed db.feeds uid (g feed.freets) }, ?_, rfl, rfl, ?_, ?_⟩
  · unfold modifyFeed
    rw [h]
  · unfold FeedCollection.findFeedByUserId at h ⊢
    exact setFeed_find_self db.feeds uid (g feed.freets) (by rw [h]; rfl)
  · intro uid' hne
    unfold FeedCollection.findFeedByUserId
    exact setFeed_find_ne db.feeds uid (g feed.freets) uid' hne

/-- Success and per-key effect of the fan-out `for` loop over a duplicate-free
list of user ids that all have feed records. -/
theorem fanoutLoop_spec (l : List String) (db : DB)
    (g : List FeedEntry → List FeedEntry)
    (hfeeds : ∀ uid ∈ l, (FeedCollection.findFeedByUserId db uid).isSome)
    (hnodup : l.Nodup) :
    ∃ db', l.foldlM (fun d uid => modifyFeed d uid g) db = some db' ∧
      db'.users = db.users ∧ db'.freets = db.freets ∧
      (∀ uid ∈ l, ∀ feed, FeedCollection.findFeedByUserId db uid = some feed →
        FeedCollection.findFeedByUserId db' uid =
          some { userId := uid, freets := g feed.freets }) ∧
      (∀ uid', uid' ∉ l →
        FeedCollection.findFeedByUserId db' uid' =
          FeedCollection.findFeedByUserId db uid') := by
  induction l generalizing db with
  | nil => exact ⟨db, rfl, rfl, rfl, by simp, by simp⟩
  | cons u rest ih =>
    obtain ⟨feedu, hu⟩ := Option.isSome_iff_exists.mp (hfeeds u (by simp))
    obtain ⟨db1, hdb1, husers1, hfreets1, hlook1, hother1⟩ :=
      modifyFeed_spec db u g feedu hu
    have hrest : ∀ uid ∈ rest, (FeedCollection.findFeedByUserId db1 uid).isSome := by
      intro uid hmem
      by_cases huid : uid = u
      · subst huid
        rw [hlook1]; rfl
      · rw [hother1 uid huid]
        exact hfeeds uid (by simp [hmem])
    have hnodup' : rest.Nodup := (List.nodup_cons.mp hnodup).2
    have hu_not : u ∉ rest := (List.nodup_cons.mp hnodup).1
    obtain ⟨db', hfold, husers, hfreets, hlook, hother⟩ := ih db1 hrest hnodup'
    refine ⟨db', ?_, husers.trans husers1, hfreets.trans hfreets1, ?_, ?_⟩
    · simp only [List.foldlM, hdb1]
      exact hfold
    · intro uid hmem feed hfeed
      rcases List.mem_cons.mp hmem with h1 | h1
      · subst h1
        rw [hother uid hu_not, hlook1]
        rw [hu] at hfeed
        injection hfeed with hfeed
        rw [hfeed]
      · have hne : uid ≠ u := fun hc => hu_not (hc ▸ h1)
        refine hlook uid h1 feed ?_
        rw [hother1 uid hne]
        exact hfeed
    · intro uid' hmem
      have h1 : uid' ∉ rest := fun hc => hmem (by simp [hc])
      have h2 : uid' ≠ u := fun hc => hmem (by simp [hc])
      rw [hother uid' h1, hother1 uid' h2]

/-- The fan-out loop preserves, key by key, whether a feed record exists. -/
theorem fanoutLoop_none_key (l : List String) (db db' : DB)
    (g : List FeedEntry → List FeedEntry)
    (h : l.foldlM (fun d uid => modifyFeed d uid g) db = some db')
    (uid : String) :
    FeedCollection.findFeedByUserId db' uid = none ↔
      FeedCollection.findFeedByUserId db uid = none := by
  induction l generalizing db with
  | nil =>
    simp only [List.foldlM] at h
    injection h with h
    rw [h]
  | cons u rest ih =>
    simp only [List.foldlM] at h
    cases hdb1 : modifyFeed db u g with
    | none => rw [hdb1] at h; exact absurd h (by simp)
    | some db1 =>
      rw [hdb1] at h
      unfold modifyFeed at hdb1
      cases hu : FeedCollection.findFeedByUserId db u with
      | none => rw [hu] at hdb1; exact absurd hdb1 (by simp)
      | some feedu =>
        rw [hu] at hdb1
        injection hdb1 with hdb1
        have step : FeedCollection.findFeedByUserId db1 uid = none ↔
            FeedCollection.findFeedByUserId db uid = none := by
          by_cases huid : uid = u
          · subst huid
            constructor
            · intro hc
              rw [← hdb1] at hc
              unfold FeedCollection.findFeedByUserId at hc
              rw [setFeed_find_self db.feeds uid (g feedu.freets)
                (by unfold FeedCollection.findFeedByUserId at hu; rw [hu]; rfl)] at hc
              exact absurd hc (by simp)
            · intro hc
              rw [hu] at hc
              exact absurd hc (by simp)
          · rw [← hdb1]
            unfold FeedCollection.findFeedByUserId
            rw [setFeed_find_ne db.feeds u (g feedu.freets) uid huid]
        exact (ih db1 h).trans step

/-- If some id in the loop's list has no feed record, the loop throws. -/
theorem fanoutLoop_none (l : List String) (db : DB)
    (g : List FeedEntry → List FeedEntry) (uid : String) (hmem : uid ∈ l)
    (hnone : FeedCollection.findFeedByUserId db uid = none) :
    l.foldlM (fun d uid => modifyFeed d uid g) db = none := by
  induction l generalizing db with
  | nil => simp at hmem
  | cons u rest ih =>
    by_cases hu : FeedCollection.findFeedByUserId db u = none
    · simp only [List.foldlM]
      rw [(modifyFeed_eq_none db u g).mpr hu]
      rfl
    · obtain ⟨feedu, hfeedu⟩ :=
        Option.ne_none_iff_exists'.mp hu
      obtain ⟨db1, hdb1, _, _, hlook1, hother1⟩ := modifyFeed_spec db u g feedu hfeedu
      have huid_ne : uid ≠ u := by
        intro hc
        subst hc
        rw [hnone] at hfeedu
        exact absurd hfeedu (by simp)
      have hmem' : uid ∈ rest := by
        rcases List.mem_cons.mp hmem with h1 | h1
        · exact absurd h1 huid_ne
        · exact h1
      simp only [List.foldlM, hdb1]
      exact ih db1 hmem' (by rw [hother1 uid huid_ne]; exact hnone)

/-- Effect of the whole fan-out (follower loop, then the author's own feed):
every feed of a follower or of the author is rewritten with `g`, every other
feed is untouched, and the user/freet collections are untouched. -/
theorem fanout_spec (db : DB) (followers : List String) (aid : String)
    (g : List FeedEntry → List FeedEntry)
    (hfeeds : ∀ uid ∈ followers ++ [aid], (FeedCollection.findFeedByUserId db uid).isSome)
    (hnodup : followers.Nodup) (hself : aid ∉ followers) :
    ∃ db', fanout db followers aid g = some db' ∧
      db'.users = db.users ∧ db'.freets = db.freets ∧
      (∀ uid ∈ followers ++ [aid], ∀ feed,
        FeedCollection.findFeedByUserId db uid = some feed →
        FeedCollection.findFeedByUserId db' uid =
          some { userId := uid, freets := g feed.freets }) ∧
      (∀ uid', uid' ∉ followers ++ [aid] →
        FeedCollection.findFeedByUserId db' uid' =
          FeedCollection.findFeedByUserId db uid') := by
  obtain ⟨db1, hdb1, husers1, hfreets1, hlook1, hother1⟩ :=
    fanoutLoop_spec followers db g
      (fun uid hm => hfeeds uid (List.mem_append_left _ hm)) hnodup
  obtain ⟨feedA, hfeedA⟩ := Option.isSome_iff_exists.mp
    (hfeeds aid (List.mem_append_right _ (by simp)))
  have hfeedA1 : FeedCollection.findFeedByUserId db1 aid = some feedA := by
    rw [hother1 aid hself]; exact hfeedA
  obtain ⟨db', hdb', husers2, hfreets2, hlook2, hother2⟩ :=
    modifyFeed_spec db1 aid g feedA hfeedA1
  refine ⟨db', ?_, husers2.trans husers1, hfreets2.trans hfreets1, ?_, ?_⟩
  · unfold fanout
    rw [hdb1]
    exact hdb'
  · intro uid hmem feed hfeed
    rcases List.mem_append.mp hmem with hm | hm
    · have hne : uid ≠ aid := fun hc => hself (hc ▸ hm)
      rw [hother2 uid hne]
      exact hlook1 uid hm feed hfeed
    · have huid : uid = aid := by simpa using hm
      subst huid
      rw [hfeedA] at hfeed
      injection hfeed with hfeed
      rw [hlook2, hfeed]
  · intro uid' hmem
    have h1 : uid' ∉ followers := fun hc => hmem (List.mem_append_left _ hc)
    have h2 : uid' ≠ aid := fun hc => hmem (List.mem_append_right _ (by simp [hc]))
    rw [hother2 uid' h2, hother1 uid' h1]

/-- If the author or any listed follower has no feed record, the fan-out
dereferences `null` (the thrown `TypeError` is `none`). -/
theorem fanout_none (db : DB) (followers : List String) (aid : String)
    (g : List FeedEntry → List FeedEntry) (uid : String)
    (hmem : uid ∈ followers ++ [aid])
    (hnone : FeedCollection.findFeedByUserId db uid = none) :
    fanout db followers aid g = none := by
  rcases List.mem_append.mp hmem with hm | hm
  · unfold fanout
    rw [fanoutLoop_none followers db g uid hm hnone]
    rfl
  · have huid : uid = aid := by simpa using hm
    subst huid
    unfold fanout
    cases hfold : followers.foldlM (fun d u => modifyFeed d u g) db with
    | none => rfl
    | some db1 =>
      have : FeedCollection.findFeedByUserId db1 uid = none :=
        (fanoutLoop_none_key followers db db1 g hfold uid).mpr hnone
      simp only [Option.bind, bind]
      rw [(modifyFeed_eq_none db1 uid g).mpr this]

end FreetCollection

/-- `findOne` on a store into which a record with a fresh key was just
appended returns that record. -/
theorem find_fresh_append {α : Type} (p : α → Bool) (l : List α) (a : α)
    (hl : ∀ x ∈ l, p x = false) (ha : p a = true) :
    (l ++ [a]).find? p = some a := by
  induction l with
  | nil => simp [List.find?, ha]
  | cons x rest ih =>
    have hx : p x = false := hl x (by simp)
    simp only [List.cons_append, List.find?, hx]
    exact ih (fun y hy => hl y (by simp [hy]))

/-- C1: after an author with an existing user record and feed records for it
and all its (duplicate-free, not-self-containing) followers creates a post
with a fresh id via `FreetCollection.addOne` (which runs
`publishFreetToFollowers`), the feed of the author and of every user whose
`following` list contains the author holds exactly one entry for the new
post, appended at the end, with all previously present entries unchanged. -/
theorem freet_addOne_publishes_exactly_once
    (db : DB) (aid content readmore newId : String) (date : Nat) (A : User)
    (hauthor : UserCollection.findOneByUserId db aid = some A)
    (hfresh : ∀ fr ∈ db.freets, fr.id ≠ newId)
    (hnodup : A.followedBy.Nodup)
    (hself : aid ∉ A.followedBy)
    (hfeeds : ∀ uid ∈ A.followedBy ++ [aid],
      (FeedCollection.findFeedByUserId db uid).isSome)
    (hclean : ∀ f ∈ db.feeds, ∀ e ∈ f.freets, e.fid ≠ newId)
    (hbridge : ∀ u ∈ db.users, (A.username ∈ u.following ↔ u.id ∈ A.followedBy)) :
    ∃ db' freet,
      FreetCollection.addOne db aid content readmore newId date = some (db', freet) ∧
      freet.snapshot.fid = newId ∧
      (∀ U ∈ db.users, (A.username ∈ U.following ∨ U.id = aid) →
        ∀ feed, FeedCollection.findFeedByUserId db U.id = some feed →
          FeedCollection.findFeedByUserId db' U.id =
            some { userId := U.id, freets := feed.freets ++ [freet.snapshot] } ∧
          (feed.freets ++ [freet.snapshot]).countP (fun e => e.fid == newId) = 1) := by
  have hAid : A.id = aid := by
    have hp := List.find?_some hauthor
    simpa using hp
  subst hAid
  set newFreet : Freet :=
    { id := newId, authorId := A.id, dateCreated := date, content := content
      readmore := readmore, likes := 0, categories := [] } with hnf
  set db1 : DB := { db with freets := db.freets ++ [newFreet] } with hdb1def
  have hfr : FreetCollection.findFreet db1 newId = some newFreet := by
    unfold FreetCollection.findFreet
    refine find_fresh_append _ db.freets newFreet ?_ (by simp)
    intro x hx
    simpa using hfresh x hx
  have hau1 : UserCollection.findOneByUserId db1 A.id = some A := hauthor
  have hpub : FreetCollection.publishFreetToFollowers db1 newId =
      FreetCollection.fanout db1 A.followedBy A.id
        (fun fs => fs ++ [newFreet.snapshot]) := by
    simp only [FreetCollection.publishFreetToFollowers, hfr, hau1]
  have hfeeds1 : ∀ uid ∈ A.followedBy ++ [A.id],
      (FeedCollection.findFeedByUserId db1 uid).isSome := fun uid hm => hfeeds uid hm
  obtain ⟨db', hfan, husers, hfreets, hlook, hother⟩ :=
    FreetCollection.fanout_spec db1 A.followedBy A.id
      (fun fs => fs ++ [newFreet.snapshot]) hfeeds1 hnodup hself
  refine ⟨db', newFreet, ?_, rfl, ?_⟩
  · have haddOne : FreetCollection.addOne db A.id content readmore newId date =
        (match FreetCollection.publishFreetToFollowers db1 newId with
         | none => none
         | some db2 => some (db2, newFreet)) := rfl
    rw [haddOne, hpub, hfan]
  · intro U hU hcase feed hfeed
    have hmem : U.id ∈ A.followedBy ++ [A.id] := by
      rcases hcase with hc | hc
      · exact List.mem_append_left _ ((hbridge U hU).mp hc)
      · exact List.mem_append_right _ (by simp [hc])
    have hfeed1 : FeedCollection.findFeedByUserId db1 U.id = some feed := hfeed
    refine ⟨hlook U.id hmem feed hfeed1, ?_⟩
    rw [List.countP_append]
    have h0 : feed.freets.countP (fun e => e.fid == newId) = 0 := by
      rw [List.countP_eq_zero]
      intro e he
      have hne := hclean feed (List.mem_of_find?_eq_some hfeed) e he
      simp [hne]
    have h1 : ([newFreet.snapshot].countP (fun e => e.fid == newId)) = 1 := by
      simp [Freet.snapshot, List.countP_cons]
    rw [h0, h1]

/-- Witness for C1 at a concrete input. -/
theorem freet_addOne_publishes_exactly_once_witness :
    ∃ db' freet,
      FreetCollection.addOne dbC1 "a" "hi" "" "p1" 7 = some (db', freet) ∧
      freet.snapshot.fid = "p1" ∧
      (∀ U ∈ dbC1.users, (userA.username ∈ U.following ∨ U.id = "a") →
        ∀ feed, FeedCollection.findFeedByUserId dbC1 U.id = some feed →
          FeedCollection.findFeedByUserId db' U.id =
            some { userId := U.id, freets := feed.freets ++ [freet.snapshot] } ∧
          (feed.freets ++ [freet.snapshot]).countP (fun e => e.fid == "p1") = 1) :=
  freet_addOne_publishes_exactly_once dbC1 "a" "hi" "" "p1" 7 userA
    (by decide) (by decide) (by decide) (by decide) (by decide) (by decide) (by decide)

/-- C4: after a post is deleted via `FreetCollection.deleteOne`, every entry
whose post identifier equals the post's identifier is removed from the feed of
the post's author and of each of the author's followers; removal is by
identifier equality (a filter), and the order of the remaining entries is
preserved (the result is a sublist). -/
theorem freet_deleteOne_retracts_from_feeds
    (db : DB) (pid : String) (P : Freet) (A : User)
    (hfound : FreetCollection.findFreet db pid = some P)
    (hauthor : UserCollection.findOneByUserId db P.authorId = some A)
    (hnodup : A.followedBy.Nodup)
    (hself : A.id ∉ A.followedBy)
    (hfeeds : ∀ uid ∈ A.followedBy ++ [A.id],
      (FeedCollection.findFeedByUserId db uid).isSome) :
    ∃ db', FreetCollection.deleteOne db pid = some (db', true) ∧
      (∀ uid ∈ A.followedBy ++ [A.id], ∀ feed,
        FeedCollection.findFeedByUserId db uid = some feed →
        FeedCollection.findFeedByUserId db' uid =
          some { userId := uid, freets := feed.freets.filter (fun e => e.fid ≠ pid) } ∧
        (∀ e ∈ feed.freets.filter (fun e => e.fid ≠ pid), e.fid ≠ pid) ∧
        (feed.freets.filter (fun e => e.fid ≠ pid)).Sublist feed.freets) := by
  have hdel : FreetCollection.deleteFreetFromFollowers db pid =
      FreetCollection.fanout db A.followedBy A.id
        (fun fs => fs.filter (fun e => e.fid ≠ pid)) := by
    simp only [FreetCollection.deleteFreetFromFollowers, hfound, hauthor]
  obtain ⟨dbf, hfan, _, _, hlook, _⟩ :=
    FreetCollection.fanout_spec db A.followedBy A.id
      (fun fs => fs.filter (fun e => e.fid ≠ pid)) hfeeds hnodup hself
  refine ⟨{ dbf with freets := dbf.freets.eraseP (fun fr => fr.id == pid) }, ?_, ?_⟩
  · have h1 : FreetCollection.deleteOne db pid =
        (match FreetCollection.deleteFreetFromFollowers db pid with
         | none => none
         | some db1 =>
            some ({ db1 with freets := db1.freets.eraseP (fun fr => fr.id == pid) }, true)) := rfl
    rw [h1, hdel, hfan]
  · intro uid hm feed hfeed
    refine ⟨hlook uid hm feed hfeed, ?_, List.filter_sublist _⟩
    intro e he
    have hpe := (List.mem_filter.mp he).2
    simpa using hpe

/-- Witness for C4 at a concrete input. -/
theorem freet_deleteOne_retracts_from_feeds_witness :
    ∃ db', FreetCollection.deleteOne dbFan "p1" = some (db', true) ∧
      (∀ uid ∈ userA.followedBy ++ [userA.id], ∀ feed,
        FeedCollection.findFeedByUserId dbFan uid = some feed →
        FeedCollection.findFeedByUserId db' uid =
          some { userId := uid, freets := feed.freets.filter (fun e => e.fid ≠ "p1") } ∧
        (∀ e ∈ feed.freets.filter (fun e => e.fid ≠ "p1"), e.fid ≠ "p1") ∧
        (feed.freets.filter (fun e => e.fid ≠ "p1")).Sublist feed.freets) :=
  freet_deleteOne_retracts_from_feeds dbFan "p1" freetP userA
    (by decide) (by decide) (by decide) (by decide) (by decide)

/-- Deleting the first feed document keyed `uid` does not change the lookup of
any other key. -/
theorem eraseP_feed_find_ne (l : List Feed) (uid uid' : String) (h : uid' ≠ uid) :
    (l.eraseP (fun f => f.userId == uid)).find? (fun f => f.userId == uid') =
      l.find? (fun f => f.userId == uid') := by
  induction l with
  | nil => rfl
  | cons f rest ih =>
    rw [List.eraseP_cons]
    by_cases hf : f.userId = uid
    · rw [show (f.userId == uid) = true from by simp [hf], cond_true]
      rw [List.find?_cons_of_neg rest
        (by simp only [beq_iff_eq, hf]; exact fun hc => h hc.symm)]
    · rw [show (f.userId == uid) = false from by simp [hf], cond_false]
      by_cases hp : f.userId = uid'
      · rw [List.find?_cons_of_pos _ (by simp [hp]),
          List.find?_cons_of_pos rest (by simp [hp])]
      · rw [List.find?_cons_of_neg _ (by simp [hp]),
          List.find?_cons_of_neg rest (by simp [hp])]
        exact ih

/-- With one feed document per user, deleting the feed keyed `uid` makes the
lookup of `uid` fail. -/
theorem eraseP_feed_find_self (l : List Feed) (uid : String)
    (h : (l.map Feed.userId).Nodup) :
    (l.eraseP (fun f => f.userId == uid)).find? (fun f => f.userId == uid) = none := by
  induction l with
  | nil => rfl
  | cons f rest ih =>
    rw [List.map_cons, List.nodup_cons] at h
    rw [List.eraseP_cons]
    by_cases hf : f.userId = uid
    · rw [show (f.userId == uid) = true from by simp [hf], cond_true]
      rw [List.find?_eq_none]
      intro x hx
      simp only [beq_iff_eq]
      intro hc
      exact h.1 (by rw [hf, ← hc]; exact List.mem_map_of_mem Feed.userId hx)
    · rw [show (f.userId == uid) = false from by simp [hf], cond_false]
      rw [List.find?_cons_of_neg _ (by simp [hf])]
      exact ih h.2

/-- C2 counterexample: `userA` (id `"a"`) authored `freetP`, fanned out to its
follower `userF`'s feed; after the account-deletion flow for `"a"`, `userF`'s
feed still contains the entry referencing `freetP`. -/
theorem account_deletion_leaves_follower_feed_entry :
    freetP.authorId = "a" ∧
    FeedCollection.findFeedByUserId (userRouter.deleteAccount dbFan "a") "f" =
      some { userId := "f", freets := [freetP.snapshot] } ∧
    freetP.snapshot.fid = freetP.id := by decide

/-- C2 amended: the account-deletion flow removes the user's posts from the
freet store and the user's own feed record, but leaves every other user's
feed — including entries referencing the deleted user's posts — entirely
unchanged (`FreetCollection.deleteMany` performs no feed cleanup). -/
theorem userRouter_deleteAccount_spec (db : DB) (uid : String)
    (hkeys : (db.feeds.map Feed.userId).Nodup) :
    (userRouter.deleteAccount db uid).freets =
      db.freets.filter (fun fr => fr.authorId ≠ uid) ∧
    FeedCollection.findFeedByUserId (userRouter.deleteAccount db uid) uid = none ∧
    (∀ uid', uid' ≠ uid →
      FeedCollection.findFeedByUserId (userRouter.deleteAccount db uid) uid' =
        FeedCollection.findFeedByUserId db uid') := by
  have hda : userRouter.deleteAccount db uid =
      { users := db.users.eraseP (fun u => u.id == uid)
        freets := db.freets.filter (fun fr => fr.authorId ≠ uid)
        feeds := db.feeds.eraseP (fun f => f.userId == uid) } := rfl
  refine ⟨by rw [hda], ?_, ?_⟩
  · rw [hda]
    unfold FeedCollection.findFeedByUserId
    exact eraseP_feed_find_self db.feeds uid hkeys
  · intro uid' h
    rw [hda]
    unfold FeedCollection.findFeedByUserId
    exact eraseP_feed_find_ne db.feeds uid uid' h

/-- Witness for the amended C2 at a concrete input. -/
theorem userRouter_deleteAccount_spec_witness :
    (userRouter.deleteAccount dbFan "a").freets =
      dbFan.freets.filter (fun fr => fr.authorId ≠ "a") ∧
    FeedCollection.findFeedByUserId (userRouter.deleteAccount dbFan "a") "a" = none ∧
    (∀ uid', uid' ≠ "a" →
      FeedCollection.findFeedByUserId (userRouter.deleteAccount dbFan "a") uid' =
        FeedCollection.findFeedByUserId dbFan uid') :=
  userRouter_deleteAccount_spec dbFan "a" (by decide)

/-- C3: the follow operation's `FeedCollection.updateFeedByAuthor` appends all
of the author's existing posts (as populated snapshots) at the end of the
follower's feed, preserving the prior feed order, with no dedup check; and the
concrete sequence follow, unfollow, follow on `dbC3` (author `"alice"` with
one existing post `"p1"`) leaves the follower's feed containing that post
exactly twice. -/
theorem follow_appends_and_refollow_duplicates
    (db : DB) (uid aid : String) (A : User) (feed : Feed)
    (hauthor : UserCollection.findOneByUserId db aid = some A)
    (hname : UserCollection.findOneByUsername db A.username = some A)
    (hfeed : FeedCollection.findFeedByUserId db uid = some feed) :
    (∃ db', FeedCollection.updateFeedByAuthor db uid aid = some db' ∧
      FeedCollection.findFeedByUserId db' uid =
        some { userId := uid, freets := (feed.freets ++
          (db.freets.filter (fun fr => fr.authorId == A.id)).map
            (fun fr => fr.snapshotPopulated A)) } ∧
      (∀ uid', uid' ≠ uid → FeedCollection.findFeedByUserId db' uid' =
        FeedCollection.findFeedByUserId db uid')) ∧
    ((userRouter.follow dbC3 "f" "alice").bind
        (fun d1 => (userRouter.unfollow d1 "f" "alice").bind
          (fun d2 => userRouter.follow d2 "f" "alice"))).map
      (fun d3 => (FeedCollection.findFeedByUserId d3 "f").map
        (fun fd => fd.freets.countP (fun e => e.fid == "p1"))) =
      some (some 2) := by
  constructor
  · have hAid : A.id = aid := by
      have hp := List.find?_some hauthor
      simpa using hp
    subst hAid
    refine ⟨{ db with feeds := (setFeed db.feeds uid
        (feed.freets ++ (db.freets.filter (fun fr => fr.authorId == A.id)).map
          (fun fr => fr.snapshotPopulated A))) }, ?_, ?_, ?_⟩
    · simp only [FeedCollection.updateFeedByAuthor, hauthor, hname, hfeed]
    · unfold FeedCollection.findFeedByUserId
      refine setFeed_find_self db.feeds uid _ ?_
      unfold FeedCollection.findFeedByUserId at hfeed
      rw [hfeed]
      rfl
    · intro uid' h
      unfold FeedCollection.findFeedByUserId
      exact setFeed_find_ne db.feeds uid _ uid' h
  · decide

/-- Witness for C3 at a concrete input (the author resolving to `userA0` after
nobody has yet followed; feed of `"f"` present and empty). -/
theorem follow_appends_and_refollow_duplicates_witness :
    (∃ db', FeedCollection.updateFeedByAuthor dbC3 "f" "a" = some db' ∧
      FeedCollection.findFeedByUserId db' "f" =
        some { userId := "f", freets := ([] ++
          (dbC3.freets.filter (fun fr => fr.authorId == userA0.id)).map
            (fun fr => fr.snapshotPopulated userA0)) } ∧
      (∀ uid', uid' ≠ "f" → FeedCollection.findFeedByUserId db' uid' =
        FeedCollection.findFeedByUserId dbC3 uid')) ∧
    ((userRouter.follow dbC3 "f" "alice").bind
        (fun d1 => (userRouter.unfollow d1 "f" "alice").bind
          (fun d2 => userRouter.follow d2 "f" "alice"))).map
      (fun d3 => (FeedCollection.findFeedByUserId d3 "f").map
        (fun fd => fd.freets.countP (fun e => e.fid == "p1"))) =
      some (some 2) :=
  follow_appends_and_refollow_duplicates dbC3 "f" "a" userA0
    { userId := "f", freets := [] } (by decide) (by decide) (by decide)

/-- C5 counterexample: `userF`'s feed holds the populated snapshot of
`userA`'s post (the shape the follow operation stores); unfollowing `userA`
(`FeedCollection.deleteFromFeedByAuthor`) does not remove it, so the feed
still contains an entry authored by `userA`. -/
theorem unfollow_keeps_populated_entry :
    (FeedCollection.deleteFromFeedByAuthor dbC5 "f" "a").map
      (fun d => FeedCollection.findFeedByUserId d "f") =
      some (some { userId := "f", freets := [freetP.snapshotPopulated userA] }) ∧
    (freetP.snapshotPopulated userA).authorRef = AuthorRef.populated userA ∧
    freetP.authorId = userA.id := by decide

/-- C5 amended: `deleteFromFeedByAuthor` keeps exactly the entries whose
stored `authorId` stringifies to something other than `followedId`: every
creation-time fan-out entry of that author (raw ObjectId reference) is
removed, other entries keep their relative order, other feeds are untouched —
but entries whose snapshot stores a populated author object survive. -/
theorem feed_deleteFromFeedByAuthor_spec
    (db : DB) (uid aid : String) (feed : Feed)
    (hfeed : FeedCollection.findFeedByUserId db uid = some feed) :
    ∃ db', FeedCollection.deleteFromFeedByAuthor db uid aid = some db' ∧
      FeedCollection.findFeedByUserId db' uid =
        some { userId := uid, freets :=
          (feed.freets.filter (fun e => e.authorRef.refString ≠ aid)) } ∧
      (∀ e ∈ feed.freets.filter (fun e => e.authorRef.refString ≠ aid),
        e.authorRef ≠ AuthorRef.oid aid) ∧
      (aid ≠ "[object Object]" → ∀ e ∈ feed.freets,
        (∃ u, e.authorRef = AuthorRef.populated u) →
        e ∈ feed.freets.filter (fun e => e.authorRef.refString ≠ aid)) ∧
      (feed.freets.filter (fun e => e.authorRef.refString ≠ aid)).Sublist feed.freets ∧
      (∀ uid', uid' ≠ uid → FeedCollection.findFeedByUserId db' uid' =
        FeedCollection.findFeedByUserId db uid') := by
  refine ⟨{ db with feeds := (setFeed db.feeds uid
      (feed.freets.filter (fun e => e.authorRef.refString ≠ aid))) },
    ?_, ?_, ?_, ?_, List.filter_sublist _, ?_⟩
  · simp only [FeedCollection.deleteFromFeedByAuthor, hfeed]
  · unfold FeedCollection.findFeedByUserId
    refine setFeed_find_self db.feeds uid _ ?_
    unfold FeedCollection.findFeedByUserId at hfeed
    rw [hfeed]
    rfl
  · intro e he
    have hpe := (List.mem_filter.mp he).2
    intro hc
    rw [hc] at hpe
    simp [AuthorRef.refString] at hpe
  · intro hobj e he ⟨u, hu⟩
    refine List.mem_filter.mpr ⟨he, ?_⟩
    rw [hu]
    simpa [AuthorRef.refString] using fun hc => hobj hc.symm
  · intro uid' h
    unfold FeedCollection.findFeedByUserId
    exact setFeed_find_ne db.feeds uid _ uid' h

/-- Witness for the amended C5 at a concrete input. -/
theorem feed_deleteFromFeedByAuthor_spec_witness :
    ∃ db', FeedCollection.deleteFromFeedByAuthor dbFan "f" "a" = some db' ∧
      FeedCollection.findFeedByUserId db' "f" =
        some { userId := "f", freets :=
          ([freetP.snapshot].filter (fun e => e.authorRef.refString ≠ "a")) } ∧
      (∀ e ∈ [freetP.snapshot].filter (fun e => e.authorRef.refString ≠ "a"),
        e.authorRef ≠ AuthorRef.oid "a") ∧
      ("a" ≠ "[object Object]" → ∀ e ∈ [freetP.snapshot],
        (∃ u, e.authorRef = AuthorRef.populated u) →
        e ∈ [freetP.snapshot].filter (fun e => e.authorRef.refString ≠ "a")) ∧
      ([freetP.snapshot].filter (fun e => e.authorRef.refString ≠ "a")).Sublist
        [freetP.snapshot] ∧
      (∀ uid', uid' ≠ "f" → FeedCollection.findFeedByUserId db' uid' =
        FeedCollection.findFeedByUserId dbFan uid') :=
  feed_deleteFromFeedByAuthor_spec dbFan "f" "a"
    { userId := "f", freets := [freetP.snapshot] } (by decide)

/-- C6 counterexample: in `dbC6` the author `userA` has follower `"f"` with
no feed record; `publishFreetToFollowers` terminates in the null-dereference
crash (`none`) — there is no `FeedNotFound` condition anywhere in the code,
so nothing is surfaced to the caller. -/
theorem publish_crashes_on_missing_feed :
    FreetCollection.publishFreetToFollowers dbC6 "p1" = none ∧
    FeedCollection.findFeedByUserId dbC6 "f" = none ∧
    userA.followedBy = ["f"] := by decide

/-- C6 amended: when the author or any of the author's listed followers has
no Feed record, the fan-out crashes with a null-dereference class error
(modelled as `none`, the thrown `TypeError`); the implementation defines no
`FeedNotFound` error value at all. -/
theorem publish_crashes_when_feed_missing
    (db : DB) (fid uid : String) (freet : Freet) (A : User)
    (hfound : FreetCollection.findFreet db fid = some freet)
    (hauthor : UserCollection.findOneByUserId db freet.authorId = some A)
    (hmem : uid ∈ A.followedBy ++ [A.id])
    (hnone : FeedCollection.findFeedByUserId db uid = none) :
    FreetCollection.publishFreetToFollowers db fid = none := by
  simp only [FreetCollection.publishFreetToFollowers, hfound, hauthor]
  exact FreetCollection.fanout_none db A.followedBy A.id _ uid hmem hnone

/-- Witness for the amended C6 at a concrete input. -/
theorem publish_crashes_when_feed_missing_witness :
    FreetCollection.publishFreetToFollowers dbC6 "p1" = none :=
  publish_crashes_when_feed_missing dbC6 "p1" "f" freetP userA
    (by decide) (by decide) (by decide) (by decide)

/-- C7 counterexample: the freet `"p1"` in `dbC7` has `likes = 5`; updating it
through src/freet/collection.ts `updateOne` with `likes = 0` provided leaves
`likes` at `5` (the `if (freetDetails.likes)` truthiness check drops `0`). -/
theorem updateOne_drops_zero_likes :
    (FreetCollection.updateOne dbC7 "p1"
        { likes := some 0, categories := none }).map (fun r => r.2.likes) =
      some 5 := by decide

/-- C7 amended: src/unnamed/part_000's `updateOne` merges exactly the provided
fields — `likes` (including `0`) and `categories` — and leaves every other
field untouched; src/freet/collection.ts's `updateOne` merges `likes` only
when it is provided and nonzero (truthy) and never merges `categories`, also
leaving every other field untouched.  Neither touches users or feeds. -/
theorem freet_updateOne_spec
    (db : DB) (fid : String) (details : FreetCollection.FreetDetails) (fr : Freet)
    (hfound : FreetCollection.findFreet db fid = some fr) :
    (∃ db' fr', FreetCollectionAlt.updateOne db fid details = some (db', fr') ∧
      fr'.likes = details.likes.getD fr.likes ∧
      fr'.categories = details.categories.getD fr.categories ∧
      fr'.id = fr.id ∧ fr'.authorId = fr.authorId ∧ fr'.content = fr.content ∧
      fr'.readmore = fr.readmore ∧ fr'.dateCreated = fr.dateCreated ∧
      db'.users = db.users ∧ db'.feeds = db.feeds) ∧
    (∃ db' fr', FreetCollection.updateOne db fid details = some (db', fr') ∧
      fr'.likes = (match details.likes with
        | some v => if v ≠ 0 then v else fr.likes
        | none => fr.likes) ∧
      fr'.categories = fr.categories ∧
      fr'.id = fr.id ∧ fr'.authorId = fr.authorId ∧ fr'.content = fr.content ∧
      fr'.readmore = fr.readmore ∧ fr'.dateCreated = fr.dateCreated ∧
      db'.users = db.users ∧ db'.feeds = db.feeds) := by
  obtain ⟨dl, dc⟩ := details
  constructor
  · simp only [FreetCollectionAlt.updateOne, hfound]
    cases dl with
    | none =>
      cases dc with
      | none => exact ⟨_, _, rfl, rfl, rfl, rfl, rfl, rfl, rfl, rfl, rfl, rfl⟩
      | some cs => exact ⟨_, _, rfl, rfl, rfl, rfl, rfl, rfl, rfl, rfl, rfl, rfl⟩
    | some v =>
      cases dc with
      | none => exact ⟨_, _, rfl, rfl, rfl, rfl, rfl, rfl, rfl, rfl, rfl, rfl⟩
      | some cs => exact ⟨_, _, rfl, rfl, rfl, rfl, rfl, rfl, rfl, rfl, rfl, rfl⟩
  · simp only [FreetCollection.updateOne, hfound]
    cases dl with
    | none => exact ⟨_, _, rfl, rfl, rfl, rfl, rfl, rfl, rfl, rfl, rfl, rfl⟩
    | some v =>
      by_cases hv : v ≠ 0
      · refine ⟨_, _, rfl, ?_, ?_, ?_, ?_, ?_, ?_, ?_, rfl, rfl⟩ <;> simp [hv]
      · refine ⟨_, _, rfl, ?_, ?_, ?_, ?_, ?_, ?_, ?_, rfl, rfl⟩ <;> simp [hv]

/-- Witness for the amended C7 at a concrete input (`likes = 0` provided). -/
theorem freet_updateOne_spec_witness :
    (∃ db' fr', FreetCollectionAlt.updateOne dbC7 "p1"
        { likes := some 0, categories := none } = some (db', fr') ∧
      fr'.likes = (some (0 : Int)).getD freetP5.likes ∧
      fr'.categories = (none : Option (List String)).getD freetP5.categories ∧
      fr'.id = freetP5.id ∧ fr'.authorId = freetP5.authorId ∧
      fr'.content = freetP5.content ∧
      fr'.readmore = freetP5.readmore ∧ fr'.dateCreated = freetP5.dateCreated ∧
      db'.users = dbC7.users ∧ db'.feeds = dbC7.feeds) ∧
    (∃ db' fr', FreetCollection.updateOne dbC7 "p1"
        { likes := some 0, categories := none } = some (db', fr') ∧
      fr'.likes = (match (some (0 : Int) : Option Int) with
        | some v => if v ≠ 0 then v else freetP5.likes
        | none => freetP5.likes) ∧
      fr'.categories = freetP5.categories ∧
      fr'.id = freetP5.id ∧ fr'.authorId = freetP5.authorId ∧
      fr'.content = freetP5.content ∧
      fr'.readmore = freetP5.readmore ∧ fr'.dateCreated = freetP5.dateCreated ∧
      db'.users = dbC7.users ∧ db'.feeds = dbC7.feeds) :=
  freet_updateOne_spec dbC7 "p1" { likes := some 0, categories := none } freetP5
    (by decide)

/-- C8 (code bug): `FreetCollection.deleteOne` on an id with no stored freet
does not return `false` — `deleteFreetFromFollowers` dereferences the `null`
result of `findOne` before its own `if (freet)` guard, so the call crashes
(`none`); and even when it completes, its return expression compares a
`DeleteResult` to `null`, which never holds, so it can only return `true`. -/
theorem freet_deleteOne_missing_crashes :
    FreetCollection.deleteOne dbEmpty "p1" = none ∧
    FreetCollection.findFreet dbEmpty "p1" = none := by decide

/-- C9: a post-creation request whose content trims to empty and whose
`refreetOf` is falsy is rejected by `isValidFreetContent` with status 400
before the handler runs: the returned store is the input store — no post
record is created and no feed is modified. -/
theorem createFreet_rejects_empty_content
    (db : DB) (userId content : String) (readmore refreetOf : Option String)
    (categories newId : String) (date : Nat)
    (htrim : jsTrim content = "")
    (hfalsy : jsTruthyStr refreetOf = false) :
    freetRouter.createFreet db userId content readmore refreetOf categories
      newId date = (db, RouteResult.clientError 400) := by
  have hv : freetMiddleware.isValidFreetContent content refreetOf = some 400 := by
    unfold freetMiddleware.isValidFreetContent
    rw [if_pos ⟨htrim, by simp [hfalsy]⟩]
  unfold freetRouter.createFreet
  rw [hv]

/-- Witness for C9 at a concrete input (whitespace-only content, no
`refreetOf`). -/
theorem createFreet_rejects_empty_content_witness :
    freetRouter.createFreet dbEmpty "a" " " none none "news" "p9" 3 =
      (dbEmpty, RouteResult.clientError 400) :=
  createFreet_rejects_empty_content dbEmpty "a" " " none none "news" "p9" 3
    (by decide) (by decide)

/-- C10: for a logged-in user that still exists, `GET /api/feed` responds 200
with the empty list when the user's Feed record is absent, and with the stored
`freets` sequence unmodified (in stored order) when it exists. -/
theorem feedRouter_getFeed_spec (db : DB) (uid : String) (u : User)
    (huser : UserCollection.findOneByUserId db uid = some u) :
    (FeedCollection.findFeedByUserId db uid = none →
      feedRouter.getFeed db uid = RouteResult.ok []) ∧
    (∀ feed, FeedCollection.findFeedByUserId db uid = some feed →
      feedRouter.getFeed db uid = RouteResult.ok feed.freets) := by
  constructor
  · intro h
    unfold feedRouter.getFeed
    rw [huser, h]
  · intro feed h
    unfold feedRouter.getFeed
    rw [huser, h]

/-- Witness for C10 at a concrete input (`userF` exists in `dbC6` but has no
feed record; the response is 200 with `[]`). -/
theorem feedRouter_getFeed_spec_witness :
    (FeedCollection.findFeedByUserId dbC6 "f" = none →
      feedRouter.getFeed dbC6 "f" = RouteResult.ok []) ∧
    (∀ feed, FeedCollection.findFeedByUserId dbC6 "f" = some feed →
      feedRouter.getFeed dbC6 "f" = RouteResult.ok feed.freets) :=
  feedRouter_getFeed_spec dbC6 "f" userF (by decide)
